import Mathlib

/-!
Verification development for the Fact Extraction & Normalization Engine of
`scripts/build_mj_inputs.py` (EDINET annual-TSV → modified-Jones input table).

The Python source is shallowly embedded:
* a loaded filing table (`polars`/`pandas` DataFrame) is a `List FactRow`;
* Python `float` values are modelled as exact rationals (`ℚ`); the only
  arithmetic the engine performs is comparison, `max`, addition, subtraction
  and multiplication by decimal unit factors, whose behaviour the claims state
  exactly;
* `Optional[float]` / `Optional[str]` become `Option ℚ` / `Option String`;
* file-system reads and library calls that may raise are modelled by `Except`
  valued oracles supplied as parameters; a `.error` models a raised Python
  exception propagating out of the enclosing function.
-/

/-! ### Character/string utilities (embeddings of the Python `str` operations) -/

/-- Embedding of Python `str.strip()`: remove leading and trailing whitespace. -/
def pyStrip (s : String) : String :=
  String.mk (((s.toList.dropWhile Char.isWhitespace).reverse.dropWhile
    Char.isWhitespace).reverse)

/-- Auxiliary: does the second character list begin with the first one? -/
def beginsWithChars : List Char → List Char → Bool
  | [], _ => true
  | _ :: _, [] => false
  | p :: ps, c :: cs => p == c && beginsWithChars ps cs

/-- Auxiliary: does `pat` occur as a contiguous run inside the character list? -/
def containsChars (pat : List Char) : List Char → Bool
  | [] => pat.isEmpty
  | c :: t => beginsWithChars pat (c :: t) || containsChars pat t

/-- Embedding of Python `pat in s` (substring test). -/
def strHas (s pat : String) : Bool :=
  containsChars pat.toList s.toList

/-! ### Decimal parsing (embedding of Python `float(str)` on finite decimal
literals: optional sign, digits, optional fraction part, optional exponent;
surrounding whitespace ignored).  Binary rounding is not modelled: values are
kept as exact rationals. -/

def isDigitChar (c : Char) : Bool := '0' ≤ c && c ≤ '9'

def natOfDigits (cs : List Char) : Nat :=
  cs.foldl (fun a c => a * 10 + (c.toNat - '0'.toNat)) 0

/-- Parse the mantissa `digits[.digits]` (at least one digit overall). -/
def parseMantissa (cs : List Char) : Option ℚ :=
  let ip := cs.takeWhile isDigitChar
  let rest := cs.drop ip.length
  match rest with
  | [] => if ip.isEmpty then none else some (natOfDigits ip : ℚ)
  | '.' :: fr =>
    if fr.all isDigitChar && !(ip.isEmpty && fr.isEmpty) then
      some ((natOfDigits ip : ℚ) + (natOfDigits fr : ℚ) / ((10 : ℚ) ^ fr.length))
    else none
  | _ => none

/-- Parse an exponent suffix `[+|-]digits`. -/
def parseExponent (cs : List Char) : Option Int :=
  match cs with
  | '+' :: r => if !r.isEmpty && r.all isDigitChar then some (natOfDigits r : Int) else none
  | '-' :: r => if !r.isEmpty && r.all isDigitChar then some (-(natOfDigits r : Int)) else none
  | r => if !r.isEmpty && r.all isDigitChar then some (natOfDigits r : Int) else none

/-- Parse an unsigned decimal literal with optional `e`/`E` exponent. -/
def parseUnsignedFloat (cs : List Char) : Option ℚ :=
  let mant := cs.takeWhile (fun c => c != 'e' && c != 'E')
  let rest := cs.drop mant.length
  match rest with
  | [] => parseMantissa mant
  | _ :: ex =>
    match parseMantissa mant, parseExponent ex with
    | some m, some e => some (m * (10 : ℚ) ^ e)
    | _, _ => none

/-- Embedding of Python `float(core)` on a character list: strip surrounding
whitespace, optional sign, then an unsigned decimal literal.  Returns `none`
where Python raises `ValueError`. -/
def parseFloatChars (cs0 : List Char) : Option ℚ :=
  let cs := ((cs0.dropWhile Char.isWhitespace).reverse.dropWhile
    Char.isWhitespace).reverse
  match cs with
  | '+' :: r => parseUnsignedFloat r
  | '-' :: r => (parseUnsignedFloat r).map Neg.neg
  | r => parseUnsignedFloat r

/-! ### Value Normalizer (`normalize_value`, source lines 216–257) -/

/-- Source `UNIT_MAP` (lines 64–70): unit label → multiplier to yen. -/
def UNIT_MAP : List (String × ℚ) :=
  [("円", 1), ("千円", 1000), ("百万円", 1000000), ("億円", 100000000), ("JPY", 1)]

/-- Embedding of `UNIT_MAP.get(unit, 1)`. -/
def unitMult (unit : String) : ℚ :=
  ((UNIT_MAP.find? (fun p => p.1 == unit)).map (fun p => p.2)).getD 1

/-- The dash/placeholder variants treated as missing (line 230). -/
def DASH_PLACEHOLDERS : List String :=
  ["", "－", "-", "―", "ー", "−", "nan", "None"]

/-- Embedding of `normalize_value` (lines 216–257): strip, dash check, comma
removal, parenthesis / `△` / `▲` negation, float parse, unit multiplication.
Each branch returns `none` exactly where the Python returns `None`. -/
def normalize_value (value_str unit : String) : Option ℚ :=
  let s := pyStrip value_str
  if DASH_PLACEHOLDERS.contains s then none
  else
    let cs := s.toList.filter (fun c => c != ',')
    if beginsWithChars ['('] cs && beginsWithChars [')'] cs.reverse then
      (parseFloatChars ((cs.drop 1).dropLast)).map (fun v => -v * unitMult unit)
    else if beginsWithChars ['△'] cs then
      (parseFloatChars (cs.drop 1)).map (fun v => -v * unitMult unit)
    else if beginsWithChars ['▲'] cs then
      (parseFloatChars (cs.drop 1)).map (fun v => -v * unitMult unit)
    else
      (parseFloatChars cs).map (fun v => v * unitMult unit)

/-! ### Filing table rows and candidate element-ID lists (source lines 84–118) -/

/-- One row of a loaded filing table: the columns of the EDINET annual TSV the
engine reads (要素ID, 相対年度, 期間・時点, 連結・個別, コンテキストID, 値, 単位). -/
structure FactRow where
  elementId : String
  relYear : String
  periodType : String
  consolidated : String
  contextId : String
  value : String
  unit : String
deriving DecidableEq

def ELEMENT_NET_SALES : List String :=
  ["NetSales", "NetSalesOfCompletedConstructionContracts"]

def ELEMENT_PROFIT_LOSS : List String :=
  ["ProfitLoss", "ProfitLossAttributableToOwnersOfParent"]

def ELEMENT_OPERATING_CF : List String :=
  ["NetCashProvidedByUsedInOperatingActivities"]

def ELEMENT_ASSETS : List String := ["Assets"]

def ELEMENT_REC_BASE : List String :=
  ["NotesAndAccountsReceivableTrade",
   "NotesAndAccountsReceivableTradeAndContractAssets",
   "ReceivablesTradeAndContractAssets",
   "AccountsReceivableTrade",
   "TradeAndOtherReceivables",
   "NotesReceivableTrade",
   "AccountsReceivableOther",
   "AccountsReceivableFromCompletedConstructionContracts",
   "NotesReceivableAccountsReceivableFromCompletedConstructionContractsAndOtherCNS"]

def ELEMENT_ECLAIMS : List String :=
  ["ElectronicallyRecordedMonetaryClaimsOperatingCA",
   "ElectronicallyRecordedMonetaryClaimsOperating"]

def ELEMENT_PPE : List String :=
  ["PropertyPlantAndEquipment", "PropertyPlantAndEquipmentNet"]

/-! ### Fact Resolver (`_extract_value_polars[_with_eid]`, lines 464–512 and
581–625; the pandas variants are line-for-line the same logic) -/

/-- Rows matching tag + relative period + period kind + consolidation scope
(the four-way filter at lines 478–483). -/
def matchRows (df : List FactRow) (fullElemId ry pt scope : String) : List FactRow :=
  df.filter (fun r =>
    r.elementId == fullElemId && r.relYear == ry && r.periodType == pt
      && r.consolidated == scope)

/-- Segment-member exclusion predicate (lines 487–494): a context is dropped
when it contains `Member` but neither `NonConsolidatedMember` nor
`ConsolidatedMember`. -/
def segmentExcluded (ctx : String) : Bool :=
  strHas ctx "Member" && !(strHas ctx "NonConsolidatedMember")
    && !(strHas ctx "ConsolidatedMember")

/-- The matching rows that survive segment-member exclusion. -/
def survivingRows (df : List FactRow) (fullElemId ry pt scope : String) : List FactRow :=
  (matchRows df fullElemId ry pt scope).filter (fun r => !segmentExcluded r.contextId)

/-- The normalized values of the surviving rows (lines 500–504). -/
def usableValues (df : List FactRow) (fullElemId ry pt scope : String) : List ℚ :=
  (survivingRows df fullElemId ry pt scope).filterMap
    (fun r => normalize_value r.value r.unit)

/-- Embedding of Python `max(values)` guarded by `if values:` (lines 506–507). -/
def listMax : List ℚ → Option ℚ
  | [] => none
  | x :: xs => some (xs.foldl max x)

/-- Embedding of `_extract_value_polars_with_eid` (lines 581–625): ordered
candidate fallback returning the value and the candidate tag that matched. -/
def extract_value_with_fallback_and_eid (df : List FactRow) :
    List String → String → String → String → String → Option ℚ × Option String
  | [], _, _, _, _ => (none, none)
  | e :: rest, ry, pt, scope, pfx =>
    match listMax (usableValues df (pfx ++ e) ry pt scope) with
    | some m => (some m, some e)
    | none => extract_value_with_fallback_and_eid df rest ry pt scope pfx

/-- Embedding of `_extract_value_polars` (lines 464–512): same fallback loop,
value only. -/
def extract_value_with_fallback (df : List FactRow) :
    List String → String → String → String → String → Option ℚ
  | [], _, _, _, _ => none
  | e :: rest, ry, pt, scope, pfx =>
    match listMax (usableValues df (pfx ++ e) ry pt scope) with
    | some m => some m
    | none => extract_value_with_fallback df rest ry pt scope pfx

/-- Embedding of `check_has_consolidated_data` (lines 673–718): is there any
consolidated-scope row, and does some sales-like candidate tag have a
consolidated row for the current period?  (No period-kind or member filter.) -/
def check_has_consolidated_data (df : List FactRow) (elementIds : List String) : Bool :=
  let consolidatedRows := df.filter (fun r => r.consolidated == "連結")
  if consolidatedRows.isEmpty then false
  else elementIds.any (fun e =>
    consolidatedRows.any (fun r =>
      r.elementId == ("jppfs_cor:" ++ e) && r.relYear == "当期"))

/-! ### Metadata, record and log structures (source lines 123–210) -/

/-- Metadata of one TSV filing, built by `read_tsv_dei_only` (scanning is an
external I/O concern; the structure itself is the data model). -/
structure TSVMetadata where
  tsv_path : String
  edinet_code : String
  accounting_standard : Option String
  fiscal_year : Option Nat
  fiscal_year_start : Option String
  fiscal_year_end : Option String
  submit_datetime : Option String
  doc_id : Option String
  has_ifrs_us_gaap : Bool
deriving DecidableEq

/-- Target-company descriptive metadata passed through into records. -/
structure CompanyInfo where
  sec_code : Option String
  company_name : Option String
  industry : Option String
  market : Option String
deriving DecidableEq

/-- One company-year record (`MJInput` dataclass, lines 137–170). -/
structure MJInput where
  edinet_code : String
  sec_code : Option String
  company_name : Option String
  industry : Option String
  market : Option String
  fiscal_year : Option Nat
  period_end : Option String
  submit_datetime : Option String
  doc_id : Option String
  tsv_path : Option String
  is_consolidated : Option Bool
  assets_prev_end : Option ℚ
  rev_t : Option ℚ
  rev_t1 : Option ℚ
  ar_end_t : Option ℚ
  ar_end_t1 : Option ℚ
  ar_end_t_no_e : Option ℚ
  ar_end_t1_no_e : Option ℚ
  eclaims_end_t : Option ℚ
  eclaims_end_t1 : Option ℚ
  rec_rule : Option String
  rec_used_base_eid : Option String
  rec_used_eclaims_eid : Option String
  ppe_end_t : Option ℚ
  ni_t : Option ℚ
  cfo_t : Option ℚ
  ta_t : Option ℚ
  d_rev : Option ℚ
  d_ar : Option ℚ
deriving DecidableEq

/-- Missing-Field Log entry (`MissingLog`, lines 173–179). -/
structure MissingLog where
  edinet_code : String
  fiscal_year : Option Nat
  tsv_path : String
  missing_reason : String
deriving DecidableEq

/-- Duplicate-Filing Log entry (`DuplicateLog`, lines 182–190). -/
structure DuplicateLog where
  edinet_code : String
  fiscal_year : Nat
  chosen_tsv : String
  chosen_submit_datetime : Option String
  skipped_tsv : String
  skipped_reason : String
deriving DecidableEq

/-- Receivables-Debug Log entry (`RecDebugLog`, lines 193–210). -/
structure RecDebugLog where
  edinet_code : String
  fiscal_year : Option Nat
  tsv_path : String
  is_consolidated : Option Bool
  rec_rule : Option String
  rec_base_end_t : Option ℚ
  rec_base_end_t1 : Option ℚ
  rec_eclaims_end_t : Option ℚ
  rec_eclaims_end_t1 : Option ℚ
  rec_plus_e_end_t : Option ℚ
  rec_plus_e_end_t1 : Option ℚ
  rec_used_base_eid_end_t : Option String
  rec_used_base_eid_end_t1 : Option String
  rec_used_eclaims_eid_end_t : Option String
  rec_used_eclaims_eid_end_t1 : Option String
deriving DecidableEq

/-! ### Filing Selector (`select_best_tsv`, lines 407–441) -/

/-- Embedding of `Path.name`: the final component of a path string. -/
def pathName (p : String) : String :=
  ((p.splitOn "/").getLastD p)

/-- The Python sort key `(m.submit_datetime or "", str(m.tsv_path))`
(line 426–427). -/
def sortKey (m : TSVMetadata) : String × String :=
  (m.submit_datetime.getD "", m.tsv_path)

/-- Lexicographic order on the sort key, as Python compares tuples. -/
def keyLe (a b : String × String) : Prop :=
  a.1 < b.1 ∨ (a.1 = b.1 ∧ a.2 ≤ b.2)

instance : DecidableRel keyLe := fun a b =>
  inferInstanceAs (Decidable (a.1 < b.1 ∨ (a.1 = b.1 ∧ a.2 ≤ b.2)))

/-- Descending comparison used for `sort(..., reverse=True)`: `x` before `y`
when `y`'s key is `≤` `x`'s key. -/
def selGe (x y : TSVMetadata) : Prop :=
  keyLe (sortKey y) (sortKey x)

instance : DecidableRel selGe := fun x y =>
  inferInstanceAs (Decidable (keyLe (sortKey y) (sortKey x)))

theorem keyLe_total (a b : String × String) : keyLe a b ∨ keyLe b a := by
  rcases lt_trichotomy a.1 b.1 with h | h | h
  · exact Or.inl (Or.inl h)
  · rcases le_total a.2 b.2 with h2 | h2
    · exact Or.inl (Or.inr ⟨h, h2⟩)
    · exact Or.inr (Or.inr ⟨h.symm, h2⟩)
  · exact Or.inr (Or.inl h)

theorem keyLe_trans (a b c : String × String) (hab : keyLe a b) (hbc : keyLe b c) :
    keyLe a c := by
  rcases hab with h1 | ⟨h1, h1'⟩
  · rcases hbc with h2 | ⟨h2, _⟩
    · exact Or.inl (h1.trans h2)
    · exact Or.inl (h2 ▸ h1)
  · rcases hbc with h2 | ⟨h2, h2'⟩
    · exact Or.inl (h1 ▸ h2)
    · exact Or.inr ⟨h1.trans h2, h1'.trans h2'⟩

theorem keyLe_antisymm (a b : String × String) (hab : keyLe a b) (hba : keyLe b a) :
    a = b := by
  rcases hab with h1 | ⟨h1, h1'⟩
  · rcases hba with h2 | ⟨h2, _⟩
    · exact absurd (h1.trans h2) (lt_irrefl _)
    · exact absurd (h2 ▸ h1) (lt_irrefl _)
  · rcases hba with h2 | ⟨_, h2'⟩
    · exact absurd (h1 ▸ h2) (lt_irrefl _)
    · exact Prod.ext h1 (le_antisymm h1' h2')

instance : IsTotal TSVMetadata selGe :=
  ⟨fun a b => (keyLe_total (sortKey b) (sortKey a)).elim Or.inl Or.inr⟩

instance : IsTrans TSVMetadata selGe :=
  ⟨fun _ _ _ hab hbc => keyLe_trans _ _ _ hbc hab⟩

/-- A Duplicate-Filing Log entry for one skipped filing (lines 432–439). -/
def mkDuplicateLog (ec : String) (fy : Nat) (chosen m : TSVMetadata) : DuplicateLog :=
  { edinet_code := ec
    fiscal_year := fy
    chosen_tsv := pathName chosen.tsv_path
    chosen_submit_datetime := chosen.submit_datetime
    skipped_tsv := pathName m.tsv_path
    skipped_reason := "duplicate_skipped: newer submit_datetime or filename chosen" }

/-- Embedding of `select_best_tsv` (lines 407–441): none → `none`; one → it;
many → stable sort descending by `(submit_datetime or "", path)` and take the
first, logging every other filing as a skipped duplicate. -/
def select_best_tsv (metas : List TSVMetadata) (ec : String) (fy : Nat) :
    Option TSVMetadata × List DuplicateLog :=
  match metas with
  | [] => (none, [])
  | [m] => (some m, [])
  | _ :: _ :: _ =>
    match List.insertionSort selGe metas with
    | [] => (none, [])
    | chosen :: rest => (some chosen, rest.map (mkDuplicateLog ec fy chosen))

/-! ### Receivables Synthesizer and Company-Year Extractor
(`extract_mj_data_from_tsv`, lines 721–864) -/

/-- Embedding of the nested `add_eclaims` (lines 804–807): absent base →
absent; otherwise base plus the claims value, claims defaulting to zero.
(Python's `(eclaims or 0)` maps a 0.0 claims value to 0, the same number.) -/
def add_eclaims (base eclaims : Option ℚ) : Option ℚ :=
  match base with
  | none => none
  | some b => some (b + eclaims.getD 0)

/-- One conditional append to `missing_reasons` (`if x is None: append(msg)`). -/
def reasonIf (cond : Bool) (msg : String) : List String :=
  if cond then [msg] else []

/-- Embedding of the guarded subtractions at lines 829–837:
`if a is not None and b is not None: result = a - b` (else left `None`). -/
def optSub (a b : Option ℚ) : Option ℚ :=
  match a, b with
  | some x, some y => some (x - y)
  | _, _ => none

/-- The body of `extract_mj_data_from_tsv` after a successful table read
(lines 738–864): scope decision, field resolutions, receivables synthesis,
derived metrics, missing-reason accumulation, and the debug-log entry. -/
def extract_mj_data_core (df : List FactRow) (meta : TSVMetadata) (ci : CompanyInfo) :
    MJInput × List String × RecDebugLog :=
  let has_consolidated := check_has_consolidated_data df ELEMENT_NET_SALES
  let ct := if has_consolidated then "連結" else "個別"
  let rev_t := extract_value_with_fallback df ELEMENT_NET_SALES "当期" "期間" ct "jppfs_cor:"
  let rev_t1 := extract_value_with_fallback df ELEMENT_NET_SALES "前期" "期間" ct "jppfs_cor:"
  let ni_t := extract_value_with_fallback df ELEMENT_PROFIT_LOSS "当期" "期間" ct "jppfs_cor:"
  let cfo_t := extract_value_with_fallback df ELEMENT_OPERATING_CF "当期" "期間" ct "jppfs_cor:"
  let assets_prev_end :=
    extract_value_with_fallback df ELEMENT_ASSETS "前期末" "時点" ct "jppfs_cor:"
  let recBaseT :=
    extract_value_with_fallback_and_eid df ELEMENT_REC_BASE "当期末" "時点" ct "jppfs_cor:"
  let recEclaimsT :=
    extract_value_with_fallback_and_eid df ELEMENT_ECLAIMS "当期末" "時点" ct "jppfs_cor:"
  let recBaseT1 :=
    extract_value_with_fallback_and_eid df ELEMENT_REC_BASE "前期末" "時点" ct "jppfs_cor:"
  let recEclaimsT1 :=
    extract_value_with_fallback_and_eid df ELEMENT_ECLAIMS "前期末" "時点" ct "jppfs_cor:"
  let ar_end_t := add_eclaims recBaseT.1 recEclaimsT.1
  let ar_end_t1 := add_eclaims recBaseT1.1 recEclaimsT1.1
  let ppe_end_t := extract_value_with_fallback df ELEMENT_PPE "当期末" "時点" ct "jppfs_cor:"
  let ta_t := optSub ni_t cfo_t
  let d_rev := optSub rev_t rev_t1
  let d_ar := optSub ar_end_t ar_end_t1
  let reasons :=
    reasonIf rev_t.isNone ("rev_t (NetSales 当期 " ++ ct ++ ")")
    ++ reasonIf rev_t1.isNone ("rev_t1 (NetSales 前期 " ++ ct ++ ")")
    ++ reasonIf ni_t.isNone ("ni_t (ProfitLoss 当期 " ++ ct ++ ")")
    ++ reasonIf cfo_t.isNone ("cfo_t (OperatingCF 当期 " ++ ct ++ ")")
    ++ reasonIf assets_prev_end.isNone ("assets_prev_end (Assets 前期末 " ++ ct ++ ")")
    ++ reasonIf ar_end_t.isNone ("ar_end_t (REC base 当期末 " ++ ct ++ ")")
    ++ reasonIf ar_end_t1.isNone ("ar_end_t1 (REC base 前期末 " ++ ct ++ ")")
    ++ reasonIf ppe_end_t.isNone ("ppe_end_t (PPE 当期末 " ++ ct ++ ")")
    ++ reasonIf ta_t.isNone ("ta_t (ni_t - cfo_t)")
    ++ reasonIf d_rev.isNone ("d_rev (rev_t - rev_t1)")
    ++ reasonIf d_ar.isNone ("d_ar (ar_end_t - ar_end_t1)")
  let mj : MJInput :=
    { edinet_code := meta.edinet_code
      sec_code := ci.sec_code
      company_name := ci.company_name
      industry := ci.industry
      market := ci.market
      fiscal_year := meta.fiscal_year
      period_end := meta.fiscal_year_end
      submit_datetime := meta.submit_datetime
      doc_id := meta.doc_id
      tsv_path := some meta.tsv_path
      is_consolidated := some has_consolidated
      assets_prev_end := assets_prev_end
      rev_t := rev_t
      rev_t1 := rev_t1
      ar_end_t := ar_end_t
      ar_end_t1 := ar_end_t1
      ar_end_t_no_e := recBaseT.1
      ar_end_t1_no_e := recBaseT1.1
      eclaims_end_t := recEclaimsT.1
      eclaims_end_t1 := recEclaimsT1.1
      rec_rule := some (if recBaseT.1.isSome then "PLUS_E" else "NO_BASE")
      rec_used_base_eid := some (recBaseT.2.getD "")
      rec_used_eclaims_eid := some (recEclaimsT.2.getD "")
      ppe_end_t := ppe_end_t
      ni_t := ni_t
      cfo_t := cfo_t
      ta_t := ta_t
      d_rev := d_rev
      d_ar := d_ar }
  let rec_debug : RecDebugLog :=
    { edinet_code := meta.edinet_code
      fiscal_year := meta.fiscal_year
      tsv_path := meta.tsv_path
      is_consolidated := some has_consolidated
      rec_rule := mj.rec_rule
      rec_base_end_t := recBaseT.1
      rec_base_end_t1 := recBaseT1.1
      rec_eclaims_end_t := recEclaimsT.1
      rec_eclaims_end_t1 := recEclaimsT1.1
      rec_plus_e_end_t := ar_end_t
      rec_plus_e_end_t1 := ar_end_t1
      rec_used_base_eid_end_t := some (recBaseT.2.getD "")
      rec_used_base_eid_end_t1 := some (recBaseT1.2.getD "")
      rec_used_eclaims_eid_end_t := some (recEclaimsT.2.getD "")
      rec_used_eclaims_eid_end_t1 := some (recEclaimsT1.2.getD "") }
  (mj, reasons, rec_debug)

/-- Embedding of `extract_mj_data_from_tsv` (lines 721–864): the table read
(an external I/O action) is supplied as an `Except`; a read failure returns
`(None, ["TSV read error: …"], None)` per lines 733–736. -/
def extract_mj_data_from_tsv (readResult : Except String (List FactRow))
    (meta : TSVMetadata) (ci : CompanyInfo) :
    Option MJInput × List String × Option RecDebugLog :=
  match readResult with
  | .error e => (none, ["TSV read error: " ++ e], none)
  | .ok df =>
    let r := extract_mj_data_core df meta ci
    (some r.1, r.2.1, some r.2.2)

/-! ### Corpus Driver (`process_company`, lines 920–997, and the aggregation
loop of `main`, lines 1079–1094) -/

def FISCAL_YEAR_MIN : Nat := 2015
def FISCAL_YEAR_MAX : Nat := 2024

/-- The fiscal years iterated by `process_company`
(`range(FISCAL_YEAR_MIN, FISCAL_YEAR_MAX + 1)`). -/
def fiscalYearsList : List Nat :=
  List.range' FISCAL_YEAR_MIN (FISCAL_YEAR_MAX + 1 - FISCAL_YEAR_MIN)

/-- One worker's accumulated output: records plus the three diagnostic logs. -/
structure Batch where
  mj_inputs : List MJInput
  missing_logs : List MissingLog
  duplicate_logs : List DuplicateLog
  rec_debug_logs : List RecDebugLog
deriving DecidableEq

def Batch.empty : Batch := ⟨[], [], [], []⟩

def Batch.append (a b : Batch) : Batch :=
  ⟨a.mj_inputs ++ b.mj_inputs, a.missing_logs ++ b.missing_logs,
   a.duplicate_logs ++ b.duplicate_logs, a.rec_debug_logs ++ b.rec_debug_logs⟩

/-- The per-year outcome of calling `extract_mj_data_from_tsv` on the chosen
filing.  `.ok` carries the returned triple; `.error` models an uncaught
Python exception escaping that call (exceptions inside it that the source
catches are already folded into the `.ok` shape). -/
abbrev ExtractOutcome := TSVMetadata → Except String (Option MJInput × List String × Option RecDebugLog)

/-- The extraction outcome when no exception escapes: the pure
`extract_mj_data_from_tsv` on the read oracle's result. -/
def pureExtract (readRes : TSVMetadata → Except String (List FactRow))
    (ci : CompanyInfo) : ExtractOutcome :=
  fun m => .ok (extract_mj_data_from_tsv (readRes m) m ci)

/-- One iteration of `process_company`'s Phase-B year loop (lines 945–995):
group the scanned metadata by fiscal year, log a missing-year reason when the
group is empty, otherwise select the best filing, run extraction and keep the
record only when no reason accumulated. -/
def process_year (ec : String) (metas : List TSVMetadata) (njg : Nat → Option String)
    (eo : ExtractOutcome) (fy : Nat) : Except String Batch :=
  let year_metas := metas.filter (fun m => m.fiscal_year == some fy)
  if year_metas.isEmpty then
    let reason := match njg fy with
      | some std => "accounting_standard: " ++ std
      | none => "no_tsv_found_for_year"
    .ok ⟨[], [⟨ec, some fy, "", reason⟩], [], []⟩
  else
    let sel := select_best_tsv year_metas ec fy
    match sel.1 with
    | none => .ok ⟨[], [], sel.2, []⟩
    | some chosen =>
      match eo chosen with
      | .error e => .error e
      | .ok (mjOpt, reasons, recDebug) =>
        let rds := recDebug.toList
        match mjOpt with
        | none =>
          .ok ⟨[], if reasons.isEmpty then []
                   else [⟨ec, some fy, chosen.tsv_path, String.intercalate "; " reasons⟩],
               sel.2, rds⟩
        | some mj =>
          if reasons.isEmpty then .ok ⟨[mj], [], sel.2, rds⟩
          else .ok ⟨[], [⟨ec, some fy, chosen.tsv_path, String.intercalate "; " reasons⟩],
                    sel.2, rds⟩

/-- The year loop as a fold.  An `.error` propagates immediately (a raised
Python exception escapes `process_company`, discarding its local lists). -/
def process_company_go (ec : String) (metas : List TSVMetadata)
    (njg : Nat → Option String) (eo : ExtractOutcome) :
    List Nat → Batch → Except String Batch
  | [], acc => .ok acc
  | fy :: rest, acc =>
    match process_year ec metas njg eo fy with
    | .error e => .error e
    | .ok d => process_company_go ec metas njg eo rest (acc.append d)

/-- Embedding of `process_company` (lines 920–997): iterate the supported
fiscal-year range over the scanned filing metadata. -/
def process_company (ec : String) (metas : List TSVMetadata)
    (njg : Nat → Option String) (eo : ExtractOutcome) : Except String Batch :=
  process_company_go ec metas njg eo fiscalYearsList Batch.empty

/-- Embedding of `main`'s aggregation loop (lines 1085–1094): each company's
future result either extends the four aggregate lists or is caught and logged
as a warning; the run continues either way. -/
def aggregate_results (results : List (String × Except String Batch)) : Batch × List String :=
  results.foldl (fun acc cr =>
    match cr.2 with
    | .ok b => (acc.1.append b, acc.2)
    | .error e => (acc.1, acc.2 ++ ["Error processing " ++ cr.1 ++ ": " ++ e]))
    (Batch.empty, [])

/-! ### Concrete fixture: the spec's end-to-end scenario (one eligible filing,
consolidated scope, complete record).  Shared by several witnesses. -/

/-- Fixture row: context "ctx" (no segment member), unit yen. -/
def rowOf (eid ry pt cons v : String) : FactRow :=
  ⟨eid, ry, pt, cons, "ctx", v, "円"⟩

def dfFixture : List FactRow :=
  [rowOf "jppfs_cor:NetSales" "当期" "期間" "連結" "1000",
   rowOf "jppfs_cor:NetSales" "前期" "期間" "連結" "800",
   rowOf "jppfs_cor:ProfitLoss" "当期" "期間" "連結" "50",
   rowOf "jppfs_cor:NetCashProvidedByUsedInOperatingActivities" "当期" "期間" "連結" "70",
   rowOf "jppfs_cor:Assets" "前期末" "時点" "連結" "900",
   rowOf "jppfs_cor:NotesAndAccountsReceivableTrade" "当期末" "時点" "連結" "120",
   rowOf "jppfs_cor:NotesAndAccountsReceivableTrade" "前期末" "時点" "連結" "100",
   rowOf "jppfs_cor:PropertyPlantAndEquipment" "当期末" "時点" "連結" "300"]

def metaFixture : TSVMetadata :=
  ⟨"p", "E1", none, some 2015, none, none, none, none, false⟩

def ciFixture : CompanyInfo := ⟨none, none, none, none⟩

def mjFixture : MJInput :=
  { edinet_code := "E1", sec_code := none, company_name := none, industry := none,
    market := none, fiscal_year := some 2015, period_end := none,
    submit_datetime := none, doc_id := none, tsv_path := some "p",
    is_consolidated := some true,
    assets_prev_end := some 900, rev_t := some 1000, rev_t1 := some 800,
    ar_end_t := some 120, ar_end_t1 := some 100,
    ar_end_t_no_e := some 120, ar_end_t1_no_e := some 100,
    eclaims_end_t := none, eclaims_end_t1 := none,
    rec_rule := some "PLUS_E",
    rec_used_base_eid := some "NotesAndAccountsReceivableTrade",
    rec_used_eclaims_eid := some "",
    ppe_end_t := some 300, ni_t := some 50, cfo_t := some 70,
    ta_t := some (-20), d_rev := some 200, d_ar := some 20 }

def rdFixture : RecDebugLog :=
  { edinet_code := "E1", fiscal_year := some 2015, tsv_path := "p",
    is_consolidated := some true, rec_rule := some "PLUS_E",
    rec_base_end_t := some 120, rec_base_end_t1 := some 100,
    rec_eclaims_end_t := none, rec_eclaims_end_t1 := none,
    rec_plus_e_end_t := some 120, rec_plus_e_end_t1 := some 100,
    rec_used_base_eid_end_t := some "NotesAndAccountsReceivableTrade",
    rec_used_base_eid_end_t1 := some "NotesAndAccountsReceivableTrade",
    rec_used_eclaims_eid_end_t := some "", rec_used_eclaims_eid_end_t1 := some "" }

set_option maxHeartbeats 4000000 in
/-- Evaluation of the extractor on the fixture filing table. -/
theorem extract_fixture_eval :
    extract_mj_data_core dfFixture metaFixture ciFixture = (mjFixture, [], rdFixture) := by
  simp [extract_mj_data_core, check_has_consolidated_data, extract_value_with_fallback,
    extract_value_with_fallback_and_eid, usableValues, survivingRows, matchRows,
    segmentExcluded, strHas, containsChars, beginsWithChars, listMax, dfFixture, rowOf,
    normalize_value, pyStrip, parseFloatChars, parseUnsignedFloat, parseMantissa,
    natOfDigits, unitMult, UNIT_MAP, DASH_PLACEHOLDERS, isDigitChar, optSub, add_eclaims,
    ELEMENT_NET_SALES, ELEMENT_PROFIT_LOSS, ELEMENT_OPERATING_CF, ELEMENT_ASSETS,
    ELEMENT_REC_BASE, ELEMENT_ECLAIMS, ELEMENT_PPE, reasonIf,
    metaFixture, ciFixture, mjFixture, rdFixture]
  try norm_num

/-! ### Helper lemmas on the guarded arithmetic -/

theorem optSub_isSome (a b : Option ℚ) : (optSub a b).isSome ↔ (a.isSome ∧ b.isSome) := by
  cases a <;> cases b <;> simp [optSub]

theorem optSub_of_eq (a b : Option ℚ) (x y : ℚ) (ha : a = some x) (hb : b = some y) :
    optSub a b = some (x - y) := by
  subst ha; subst hb; rfl

/-! ### C3 — Receivables Synthesizer -/

/-- C3: for each period end independently, an absent receivables base makes the
synthesized value absent whatever the claims value; a present base with absent
claims gives exactly the base; both present gives base plus claims; a
synthesized value implies the base resolved.  The last conjunct ties the
synthesizer to the extractor: the record's `ar_end_t`/`ar_end_t1` are the
synthesis of its own raw base (`ar_end_t_no_e`) and claims (`eclaims_end_t`)
fields at each period end. -/
theorem c3_receivables_synthesizer :
    (∀ e, add_eclaims none e = none)
  ∧ (∀ b : ℚ, add_eclaims (some b) none = some b)
  ∧ (∀ b e : ℚ, add_eclaims (some b) (some e) = some (b + e))
  ∧ (∀ b e, ∀ v : ℚ, add_eclaims b e = some v → b.isSome)
  ∧ (∀ df meta ci,
      (extract_mj_data_core df meta ci).1.ar_end_t =
        add_eclaims (extract_mj_data_core df meta ci).1.ar_end_t_no_e
          (extract_mj_data_core df meta ci).1.eclaims_end_t
    ∧ (extract_mj_data_core df meta ci).1.ar_end_t1 =
        add_eclaims (extract_mj_data_core df meta ci).1.ar_end_t1_no_e
          (extract_mj_data_core df meta ci).1.eclaims_end_t1) := by
  refine ⟨fun e => rfl, fun b => by simp [add_eclaims], fun b e => by simp [add_eclaims],
    ?_, fun df meta ci => ⟨rfl, rfl⟩⟩
  intro b e v h
  cases b <;> simp [add_eclaims] at h ⊢

/-- Witness for C3: a concrete synthesized value forces the base present. -/
theorem c3_witness : (some (3 : ℚ)).isSome :=
  c3_receivables_synthesizer.2.2.2.1 (some 3) (some 2) 5
    (by simp [add_eclaims]; norm_num)

/-! ### C4 — derived metrics -/

/-- C4: each derived metric (`ta_t`, `d_rev`, `d_ar`) of an extracted record is
present iff both of its operands are, and when present equals their exact
difference. -/
theorem c4_derived_metrics (df : List FactRow) (meta : TSVMetadata) (ci : CompanyInfo) :
    (((extract_mj_data_core df meta ci).1.ta_t).isSome ↔
      ((extract_mj_data_core df meta ci).1.ni_t).isSome
        ∧ ((extract_mj_data_core df meta ci).1.cfo_t).isSome)
  ∧ (∀ a b : ℚ, (extract_mj_data_core df meta ci).1.ni_t = some a →
      (extract_mj_data_core df meta ci).1.cfo_t = some b →
      (extract_mj_data_core df meta ci).1.ta_t = some (a - b))
  ∧ (((extract_mj_data_core df meta ci).1.d_rev).isSome ↔
      ((extract_mj_data_core df meta ci).1.rev_t).isSome
        ∧ ((extract_mj_data_core df meta ci).1.rev_t1).isSome)
  ∧ (∀ a b : ℚ, (extract_mj_data_core df meta ci).1.rev_t = some a →
      (extract_mj_data_core df meta ci).1.rev_t1 = some b →
      (extract_mj_data_core df meta ci).1.d_rev = some (a - b))
  ∧ (((extract_mj_data_core df meta ci).1.d_ar).isSome ↔
      ((extract_mj_data_core df meta ci).1.ar_end_t).isSome
        ∧ ((extract_mj_data_core df meta ci).1.ar_end_t1).isSome)
  ∧ (∀ a b : ℚ, (extract_mj_data_core df meta ci).1.ar_end_t = some a →
      (extract_mj_data_core df meta ci).1.ar_end_t1 = some b →
      (extract_mj_data_core df meta ci).1.d_ar = some (a - b)) := by
  have hta : (extract_mj_data_core df meta ci).1.ta_t =
      optSub (extract_mj_data_core df meta ci).1.ni_t
        (extract_mj_data_core df meta ci).1.cfo_t := rfl
  have hdr : (extract_mj_data_core df meta ci).1.d_rev =
      optSub (extract_mj_data_core df meta ci).1.rev_t
        (extract_mj_data_core df meta ci).1.rev_t1 := rfl
  have hda : (extract_mj_data_core df meta ci).1.d_ar =
      optSub (extract_mj_data_core df meta ci).1.ar_end_t
        (extract_mj_data_core df meta ci).1.ar_end_t1 := rfl
  refine ⟨?_, ?_, ?_, ?_, ?_, ?_⟩
  · rw [hta, optSub_isSome]
  · intro a b h1 h2; rw [hta]; exact optSub_of_eq _ _ _ _ h1 h2
  · rw [hdr, optSub_isSome]
  · intro a b h1 h2; rw [hdr]; exact optSub_of_eq _ _ _ _ h1 h2
  · rw [hda, optSub_isSome]
  · intro a b h1 h2; rw [hda]; exact optSub_of_eq _ _ _ _ h1 h2

/-- Witness for C4: on the fixture filing, accruals are net income minus
operating cash flow, `50 − 70`. -/
theorem c4_witness :
    (extract_mj_data_core dfFixture metaFixture ciFixture).1.ta_t = some (50 - 70) :=
  (c4_derived_metrics dfFixture metaFixture ciFixture).2.1 50 70
    (by rw [extract_fixture_eval]; rfl)
    (by rw [extract_fixture_eval]; rfl)

/-! ### C9 — Value Normalizer negation and unit scaling -/

/-- C9: a value wrapped in ASCII parentheses, or prefixed by `△` or `▲`, is
normalized to the negation of the unwrapped value times the unit factor; the
two concrete examples of the spec hold; the unit factors are exactly 1, 1e3,
1e6, 1e8 and default to 1 for unrecognized units.  The hypotheses of the two
general conjuncts state, through the normalizer's own operations, that the
stripped input is not a dash placeholder, has the claimed negative marker, and
that its unwrapped core parses as the number `v`. -/
theorem c9_normalizer_negation_and_units :
    (∀ t u : String, ∀ v : ℚ,
      DASH_PLACEHOLDERS.contains (pyStrip t) = false →
      beginsWithChars ['('] ((pyStrip t).toList.filter (fun c => c != ',')) = true →
      beginsWithChars [')']
        ((pyStrip t).toList.filter (fun c => c != ',')).reverse = true →
      parseFloatChars ((((pyStrip t).toList.filter (fun c => c != ',')).drop 1).dropLast)
        = some v →
      normalize_value t u = some (-(v * unitMult u)))
  ∧ (∀ t u : String, ∀ v : ℚ,
      DASH_PLACEHOLDERS.contains (pyStrip t) = false →
      (beginsWithChars ['('] ((pyStrip t).toList.filter (fun c => c != ',')) &&
        beginsWithChars [')']
          ((pyStrip t).toList.filter (fun c => c != ',')).reverse) = false →
      (beginsWithChars ['△'] ((pyStrip t).toList.filter (fun c => c != ',')) = true ∨
        beginsWithChars ['▲'] ((pyStrip t).toList.filter (fun c => c != ',')) = true) →
      parseFloatChars (((pyStrip t).toList.filter (fun c => c != ',')).drop 1) = some v →
      normalize_value t u = some (-(v * unitMult u)))
  ∧ normalize_value "(1,234)" "千円" = some (-1234000)
  ∧ normalize_value "5" "億円" = some (500000000)
  ∧ unitMult "円" = 1 ∧ unitMult "千円" = 1000 ∧ unitMult "百万円" = 1000000
  ∧ unitMult "億円" = 100000000
  ∧ (∀ u, (∀ p ∈ UNIT_MAP, p.1 ≠ u) → unitMult u = 1) := by
  refine ⟨?_, ?_, ?_, ?_, by decide, by decide, by decide, by decide, ?_⟩
  · intro t u v h0 hp1 hp2 hv
    simp only [normalize_value, h0, hp1, hp2, Bool.false_eq_true, if_false, Bool.and_self,
      if_true, hv]
    simp [neg_mul]
  · intro t u v h0 hp hglyph hv
    rcases hglyph with hg | hg
    · simp only [normalize_value, h0, hp, hg, Bool.false_eq_true, if_false, if_true, hv]
      simp [neg_mul]
    · by_cases hg2 : beginsWithChars ['△']
        ((pyStrip t).toList.filter (fun c => c != ',')) = true
      · simp only [normalize_value, h0, hp, hg2, Bool.false_eq_true, if_false, if_true, hv]
        simp [neg_mul]
      · have hg2' : beginsWithChars ['△']
            ((pyStrip t).toList.filter (fun c => c != ',')) = false :=
          Bool.eq_false_iff.mpr hg2
        simp only [normalize_value, h0, hp, hg, hg2', Bool.false_eq_true, if_false,
          if_true, hv]
        simp [neg_mul]
  · simp [normalize_value, pyStrip, parseFloatChars, parseUnsignedFloat, parseMantissa,
      natOfDigits, unitMult, UNIT_MAP, DASH_PLACEHOLDERS, beginsWithChars, isDigitChar]
    norm_num
  · simp [normalize_value, pyStrip, parseFloatChars, parseUnsignedFloat, parseMantissa,
      natOfDigits, unitMult, UNIT_MAP, DASH_PLACEHOLDERS, beginsWithChars, isDigitChar]
    norm_num
  · intro u h
    have hfind : UNIT_MAP.find? (fun p => p.1 == u) = none := by
      rw [List.find?_eq_none]
      intro p hp
      simpa using h p hp
    simp [unitMult, hfind]

/-- Witness for C9: the parenthesized example instantiates the general
negation conjunct. -/
theorem c9_witness : normalize_value "(1,234)" "千円" = some (-(1234 * unitMult "千円")) :=
  c9_normalizer_negation_and_units.1 "(1,234)" "千円" 1234
    (by decide) (by decide) (by decide)
    (by simp [pyStrip, parseFloatChars, parseUnsignedFloat, parseMantissa,
          natOfDigits, isDigitChar]
        try norm_num)

/-! ### C2 — Fact Resolver helper lemmas -/

theorem listMax_eq_none (l : List ℚ) : listMax l = none ↔ l = [] := by
  cases l <;> simp [listMax]

theorem foldl_max_spec (xs : List ℚ) (x : ℚ) :
    (xs.foldl max x = x ∨ xs.foldl max x ∈ xs)
      ∧ x ≤ xs.foldl max x ∧ ∀ w ∈ xs, w ≤ xs.foldl max x := by
  induction xs generalizing x with
  | nil => simp
  | cons y ys ih =>
    have h := ih (max x y)
    rw [List.foldl_cons]
    refine ⟨?_, ?_, ?_⟩
    · rcases h.1 with h1 | h1
      · rcases max_choice x y with hm | hm
        · exact Or.inl (by rw [h1, hm])
        · exact Or.inr (by rw [h1, hm]; exact List.mem_cons_self _ _)
      · exact Or.inr (List.mem_cons_of_mem _ h1)
    · exact le_trans (le_max_left x y) h.2.1
    · intro w hw
      rcases List.mem_cons.mp hw with hw | hw
      · rw [hw]; exact le_trans (le_max_right x y) h.2.1
      · exact h.2.2 w hw

theorem listMax_spec (l : List ℚ) (m : ℚ) (h : listMax l = some m) :
    m ∈ l ∧ ∀ w ∈ l, w ≤ m := by
  cases l with
  | nil => simp [listMax] at h
  | cons x xs =>
    simp only [listMax, Option.some.injEq] at h
    have hs := foldl_max_spec xs x
    constructor
    · rcases hs.1 with h1 | h1
      · rw [← h, h1]; exact List.mem_cons_self _ _
      · rw [← h]; exact List.mem_cons_of_mem _ h1
    · intro w hw
      rcases List.mem_cons.mp hw with hw | hw
      · rw [← h, hw]; exact hs.2.1
      · rw [← h]; exact hs.2.2 w hw

theorem mem_usableValues (df : List FactRow) (full ry pt scope : String) (q : ℚ) :
    q ∈ usableValues df full ry pt scope ↔
      ∃ r, r ∈ df ∧ r.elementId = full ∧ r.relYear = ry ∧ r.periodType = pt
        ∧ r.consolidated = scope
        ∧ (strHas r.contextId "Member" = true →
            strHas r.contextId "NonConsolidatedMember" = true
            ∨ strHas r.contextId "ConsolidatedMember" = true)
        ∧ normalize_value r.value r.unit = some q := by
  constructor
  · intro hq
    obtain ⟨r, hr, hval⟩ := List.mem_filterMap.mp hq
    obtain ⟨hrm, hseg⟩ := List.mem_filter.mp hr
    obtain ⟨hmem, hcond⟩ := List.mem_filter.mp hrm
    simp only [Bool.and_eq_true, beq_iff_eq] at hcond
    obtain ⟨⟨⟨h1, h2⟩, h3⟩, h4⟩ := hcond
    have hs : segmentExcluded r.contextId = false := by simpa using hseg
    refine ⟨r, hmem, h1, h2, h3, h4, ?_, hval⟩
    intro hM
    cases hB : strHas r.contextId "NonConsolidatedMember" with
    | true => exact Or.inl rfl
    | false =>
      cases hC : strHas r.contextId "ConsolidatedMember" with
      | true => exact Or.inr rfl
      | false => simp [segmentExcluded, hM, hB, hC] at hs
  · rintro ⟨r, hmem, h1, h2, h3, h4, hseg, hval⟩
    apply List.mem_filterMap.mpr
    refine ⟨r, ?_, hval⟩
    apply List.mem_filter.mpr
    constructor
    · apply List.mem_filter.mpr
      exact ⟨hmem, by simp [h1, h2, h3, h4]⟩
    · cases hM : strHas r.contextId "Member" with
      | false => simp [segmentExcluded, hM]
      | true =>
        rcases hseg hM with h | h
        · simp [segmentExcluded, h]
        · simp [segmentExcluded, hM, h]

theorem fallback_append (df : List FactRow) (pre : List String) (e : String)
    (post : List String) (ry pt scope pfx : String) (m : ℚ)
    (hpre : ∀ e2 ∈ pre, usableValues df (pfx ++ e2) ry pt scope = [])
    (hm : listMax (usableValues df (pfx ++ e) ry pt scope) = some m) :
    extract_value_with_fallback_and_eid df (pre ++ e :: post) ry pt scope pfx
      = (some m, some e) := by
  induction pre with
  | nil => simp only [List.nil_append, extract_value_with_fallback_and_eid, hm]
  | cons a t ih =>
    have ha := hpre a (List.mem_cons_self _ _)
    simp only [List.cons_append, extract_value_with_fallback_and_eid, ha, listMax]
    exact ih (fun e2 he2 => hpre e2 (List.mem_cons_of_mem _ he2))

theorem fallback_none_iff (df : List FactRow) (ids : List String) (ry pt scope pfx : String) :
    extract_value_with_fallback_and_eid df ids ry pt scope pfx = (none, none) ↔
      ∀ e ∈ ids, usableValues df (pfx ++ e) ry pt scope = [] := by
  induction ids with
  | nil => simp [extract_value_with_fallback_and_eid]
  | cons e rest ih =>
    cases h : listMax (usableValues df (pfx ++ e) ry pt scope) with
    | some m =>
      simp only [extract_value_with_fallback_and_eid, h]
      constructor
      · intro hcontra; exact absurd hcontra (by simp)
      · intro hall
        have h0 := hall e (List.mem_cons_self _ _)
        rw [h0] at h; simp [listMax] at h
    | none =>
      simp only [extract_value_with_fallback_and_eid, h]
      rw [ih]
      constructor
      · intro hall e2 he2
        rcases List.mem_cons.mp he2 with he2 | he2
        · subst he2; exact (listMax_eq_none _).mp h
        · exact hall e2 he2
      · intro hall e2 he2; exact hall e2 (List.mem_cons_of_mem _ he2)

theorem fallback_fst_eq (df : List FactRow) (ids : List String) (ry pt scope pfx : String) :
    extract_value_with_fallback df ids ry pt scope pfx =
      (extract_value_with_fallback_and_eid df ids ry pt scope pfx).1 := by
  induction ids with
  | nil => rfl
  | cons e rest ih =>
    cases h : listMax (usableValues df (pfx ++ e) ry pt scope) with
    | some m => simp [extract_value_with_fallback, extract_value_with_fallback_and_eid, h]
    | none => simp [extract_value_with_fallback, extract_value_with_fallback_and_eid, h, ih]

/-! ### C2 — Fact Resolver -/

/-- C2: the resolver's usable values for a tag are exactly the normalized
values of rows matching tag+period+kind+scope whose context, if it mentions a
segment member, mentions a scope-clarifying member; candidate fallback is
short-circuiting (the first candidate with a usable value determines the
result, later candidates never consulted); the returned value is the maximum
usable value of the matched tag; and `(none, none)` is returned iff every
candidate yields zero usable values.  The value-only resolver agrees with the
tag-reporting one. -/
theorem c2_fact_resolver (df : List FactRow) (ids : List String) (ry pt scope pfx : String) :
    (∀ e : String, ∀ q : ℚ, q ∈ usableValues df (pfx ++ e) ry pt scope ↔
      ∃ r, r ∈ df ∧ r.elementId = pfx ++ e ∧ r.relYear = ry ∧ r.periodType = pt
        ∧ r.consolidated = scope
        ∧ (strHas r.contextId "Member" = true →
            strHas r.contextId "NonConsolidatedMember" = true
            ∨ strHas r.contextId "ConsolidatedMember" = true)
        ∧ normalize_value r.value r.unit = some q)
  ∧ (∀ pre e post, ∀ m : ℚ, ids = pre ++ e :: post →
      (∀ e2 ∈ pre, usableValues df (pfx ++ e2) ry pt scope = []) →
      listMax (usableValues df (pfx ++ e) ry pt scope) = some m →
      extract_value_with_fallback_and_eid df ids ry pt scope pfx = (some m, some e))
  ∧ (extract_value_with_fallback_and_eid df ids ry pt scope pfx = (none, none) ↔
      ∀ e ∈ ids, usableValues df (pfx ++ e) ry pt scope = [])
  ∧ (∀ e : String, ∀ m : ℚ, listMax (usableValues df (pfx ++ e) ry pt scope) = some m →
      m ∈ usableValues df (pfx ++ e) ry pt scope
        ∧ ∀ w ∈ usableValues df (pfx ++ e) ry pt scope, w ≤ m)
  ∧ extract_value_with_fallback df ids ry pt scope pfx =
      (extract_value_with_fallback_and_eid df ids ry pt scope pfx).1 := by
  refine ⟨fun e q => mem_usableValues df (pfx ++ e) ry pt scope q, ?_,
    fallback_none_iff df ids ry pt scope pfx,
    fun e m hm => listMax_spec _ m hm,
    fallback_fst_eq df ids ry pt scope pfx⟩
  intro pre e post m hids hpre hm
  rw [hids]
  exact fallback_append df pre e post ry pt scope pfx m hpre hm

set_option maxHeartbeats 1000000 in
/-- Witness for C2: on the fixture filing, the first profit-loss candidate tag
matches with value 50 and the resolver reports that tag. -/
theorem c2_witness :
    extract_value_with_fallback_and_eid dfFixture ELEMENT_PROFIT_LOSS "当期" "期間" "連結"
      "jppfs_cor:" = (some 50, some "ProfitLoss") :=
  (c2_fact_resolver dfFixture ELEMENT_PROFIT_LOSS "当期" "期間" "連結" "jppfs_cor:").2.1
    [] "ProfitLoss" ["ProfitLossAttributableToOwnersOfParent"] 50 rfl (by simp)
    (by simp [usableValues, survivingRows, matchRows, segmentExcluded, strHas,
          containsChars, beginsWithChars, dfFixture, rowOf, normalize_value, pyStrip,
          parseFloatChars, parseUnsignedFloat, parseMantissa, natOfDigits, unitMult,
          UNIT_MAP, DASH_PLACEHOLDERS, isDigitChar, listMax]
        try norm_num)

/-! ### C8 — scope decided once per filing -/

/-- The consolidation check holds exactly when some sales-like candidate tag
has a consolidated-scope row for the current period. -/
theorem check_has_consolidated_iff (df : List FactRow) (elementIds : List String) :
    check_has_consolidated_data df elementIds = true ↔
      ∃ e ∈ elementIds, ∃ r ∈ df, r.consolidated = "連結"
        ∧ r.elementId = "jppfs_cor:" ++ e ∧ r.relYear = "当期" := by
  simp only [check_has_consolidated_data]
  split_ifs with hemp
  · simp only [Bool.false_eq_true, false_iff]
    rintro ⟨e, he, r, hr, hc, hx, hy⟩
    have hnil : df.filter (fun r => r.consolidated == "連結") = [] := by
      simpa [List.isEmpty_iff] using hemp
    have := List.filter_eq_nil_iff.mp hnil r hr
    simp [hc] at this
  · simp only [List.any_eq_true, List.mem_filter, Bool.and_eq_true, beq_iff_eq]
    constructor
    · rintro ⟨e, he, r, ⟨hrd, hrc⟩, hx, hy⟩
      exact ⟨e, he, r, hrd, hrc, hx, hy⟩
    · rintro ⟨e, he, r, hrd, hrc, hx, hy⟩
      exact ⟨e, he, r, ⟨hrd, hrc⟩, hx, hy⟩

/-- C8: one scope (consolidated or non-consolidated) is decided per filing —
consolidated exactly when a consolidated-scope sales-like fact for the current
period is present — the record is flagged with it, and every field resolution
of the extractor uses that single scope. -/
theorem c8_single_scope (df : List FactRow) (meta : TSVMetadata) (ci : CompanyInfo) :
    ∃ scope : String, (scope = "連結" ∨ scope = "個別")
  ∧ ((scope = "連結") ↔ ∃ e ∈ ELEMENT_NET_SALES, ∃ r ∈ df, r.consolidated = "連結"
        ∧ r.elementId = "jppfs_cor:" ++ e ∧ r.relYear = "当期")
  ∧ ((extract_mj_data_core df meta ci).1.is_consolidated = some true ↔ scope = "連結")
  ∧ ((extract_mj_data_core df meta ci).1.is_consolidated = some false ↔ scope = "個別")
  ∧ (extract_mj_data_core df meta ci).1.rev_t
      = extract_value_with_fallback df ELEMENT_NET_SALES "当期" "期間" scope "jppfs_cor:"
  ∧ (extract_mj_data_core df meta ci).1.rev_t1
      = extract_value_with_fallback df ELEMENT_NET_SALES "前期" "期間" scope "jppfs_cor:"
  ∧ (extract_mj_data_core df meta ci).1.ni_t
      = extract_value_with_fallback df ELEMENT_PROFIT_LOSS "当期" "期間" scope "jppfs_cor:"
  ∧ (extract_mj_data_core df meta ci).1.cfo_t
      = extract_value_with_fallback df ELEMENT_OPERATING_CF "当期" "期間" scope "jppfs_cor:"
  ∧ (extract_mj_data_core df meta ci).1.assets_prev_end
      = extract_value_with_fallback df ELEMENT_ASSETS "前期末" "時点" scope "jppfs_cor:"
  ∧ (extract_mj_data_core df meta ci).1.ppe_end_t
      = extract_value_with_fallback df ELEMENT_PPE "当期末" "時点" scope "jppfs_cor:"
  ∧ (extract_mj_data_core df meta ci).1.ar_end_t_no_e
      = (extract_value_with_fallback_and_eid df ELEMENT_REC_BASE "当期末" "時点" scope
          "jppfs_cor:").1
  ∧ (extract_mj_data_core df meta ci).1.ar_end_t1_no_e
      = (extract_value_with_fallback_and_eid df ELEMENT_REC_BASE "前期末" "時点" scope
          "jppfs_cor:").1
  ∧ (extract_mj_data_core df meta ci).1.eclaims_end_t
      = (extract_value_with_fallback_and_eid df ELEMENT_ECLAIMS "当期末" "時点" scope
          "jppfs_cor:").1
  ∧ (extract_mj_data_core df meta ci).1.eclaims_end_t1
      = (extract_value_with_fallback_and_eid df ELEMENT_ECLAIMS "前期末" "時点" scope
          "jppfs_cor:").1 := by
  refine ⟨if check_has_consolidated_data df ELEMENT_NET_SALES then "連結" else "個別",
    ?_, ?_, ?_, ?_, rfl, rfl, rfl, rfl, rfl, rfl, rfl, rfl, rfl, rfl⟩
  · cases hc : check_has_consolidated_data df ELEMENT_NET_SALES <;> simp [hc]
  · rw [← check_has_consolidated_iff df ELEMENT_NET_SALES]
    cases hc : check_has_consolidated_data df ELEMENT_NET_SALES <;> simp [hc]
  · have hflag : (extract_mj_data_core df meta ci).1.is_consolidated
        = some (check_has_consolidated_data df ELEMENT_NET_SALES) := rfl
    rw [hflag]
    cases hc : check_has_consolidated_data df ELEMENT_NET_SALES <;> simp [hc]
  · have hflag : (extract_mj_data_core df meta ci).1.is_consolidated
        = some (check_has_consolidated_data df ELEMENT_NET_SALES) := rfl
    rw [hflag]
    cases hc : check_has_consolidated_data df ELEMENT_NET_SALES <;> simp [hc]

/-! ### C1/C10 — Corpus Driver characterization -/

/-- The record a given fiscal year contributes to the complete-case output:
present exactly when a filing was selected, its extraction returned without
raising, and no missing-field reason accumulated. -/
def keptForYear (ec : String) (metas : List TSVMetadata) (njg : Nat → Option String)
    (eo : ExtractOutcome) (fy : Nat) : Option MJInput :=
  let year_metas := metas.filter (fun m => m.fiscal_year == some fy)
  if year_metas.isEmpty then none
  else
    match (select_best_tsv year_metas ec fy).1 with
    | none => none
    | some chosen =>
      match eo chosen with
      | .error _ => none
      | .ok (mjOpt, reasons, _) => if reasons.isEmpty then mjOpt else none

theorem process_year_ok_mj (ec : String) (metas : List TSVMetadata)
    (njg : Nat → Option String) (eo : ExtractOutcome) (fy : Nat) (d : Batch)
    (h : process_year ec metas njg eo fy = .ok d) :
    d.mj_inputs = (keptForYear ec metas njg eo fy).toList := by
  simp only [process_year] at h
  simp only [keptForYear]
  cases hemp : (metas.filter (fun m => m.fiscal_year == some fy)).isEmpty with
  | true =>
    simp only [hemp, if_true] at h ⊢
    simp only [Except.ok.injEq] at h
    subst h
    simp
  | false =>
    simp only [hemp, Bool.false_eq_true, if_false] at h ⊢
    cases hsel : (select_best_tsv (metas.filter (fun m => m.fiscal_year == some fy)) ec fy).1 with
    | none =>
      simp only [hsel, Except.ok.injEq] at h
      subst h
      simp
    | some chosen =>
      simp only [hsel] at h
      cases heo : eo chosen with
      | error e =>
        simp only [heo] at h
        exact Except.noConfusion h
      | ok trip =>
        simp only [heo] at h
        obtain ⟨mjOpt, reasons, rd⟩ := trip
        cases hmj : mjOpt with
        | none =>
          simp only [hmj, Except.ok.injEq] at h
          subst h
          cases hre : reasons.isEmpty <;> simp [heo, hmj, hre]
        | some mj =>
          simp only [hmj] at h
          cases hre : reasons.isEmpty with
          | true =>
            simp only [hre, if_true] at h ⊢
            simp only [Except.ok.injEq] at h
            subst h
            simp [heo, hmj, hre]
          | false =>
            simp only [hre, Bool.false_eq_true, if_false] at h ⊢
            simp only [Except.ok.injEq] at h
            subst h
            simp [heo, hmj, hre]

theorem process_company_go_mj (ec : String) (metas : List TSVMetadata)
    (njg : Nat → Option String) (eo : ExtractOutcome) (years : List Nat) :
    ∀ acc b, process_company_go ec metas njg eo years acc = .ok b →
      b.mj_inputs = acc.mj_inputs ++ years.filterMap (keptForYear ec metas njg eo) := by
  induction years with
  | nil =>
    intro acc b h
    simp only [process_company_go, Except.ok.injEq] at h
    subst h
    simp
  | cons fy rest ih =>
    intro acc b h
    simp only [process_company_go] at h
    cases hy : process_year ec metas njg eo fy with
    | error e => rw [hy] at h; exact Except.noConfusion h
    | ok d =>
      rw [hy] at h
      have hd := process_year_ok_mj ec metas njg eo fy d hy
      have hb := ih (acc.append d) b h
      rw [hb, List.filterMap_cons]
      cases hk : keptForYear ec metas njg eo fy with
      | none =>
        rw [hk] at hd
        simp only [Option.toList] at hd
        simp [Batch.append, hd]
      | some mj =>
        rw [hk] at hd
        simp only [Option.toList] at hd
        simp [Batch.append, hd]

theorem process_company_mj (ec : String) (metas : List TSVMetadata)
    (njg : Nat → Option String) (eo : ExtractOutcome) (b : Batch)
    (h : process_company ec metas njg eo = .ok b) :
    b.mj_inputs = fiscalYearsList.filterMap (keptForYear ec metas njg eo) := by
  have := process_company_go_mj ec metas njg eo fiscalYearsList Batch.empty b h
  simpa [Batch.empty] using this

theorem select_best_tsv_fst_mem (l : List TSVMetadata) (ec : String) (fy : Nat)
    (c : TSVMetadata) (h : (select_best_tsv l ec fy).1 = some c) : c ∈ l := by
  match l with
  | [] => simp [select_best_tsv] at h
  | [m] =>
    simp only [select_best_tsv, Option.some.injEq] at h
    subst h
    exact List.mem_singleton_self _
  | a :: b2 :: t =>
    simp only [select_best_tsv] at h
    cases hs : List.insertionSort selGe (a :: b2 :: t) with
    | nil =>
      have := List.perm_insertionSort selGe (a :: b2 :: t)
      rw [hs] at this
      exact absurd this.symm (by simp)
    | cons chosen rest =>
      rw [hs] at h
      simp only [Option.some.injEq] at h
      subst h
      have := List.perm_insertionSort selGe (a :: b2 :: t)
      rw [hs] at this
      exact this.mem_iff.mp (List.mem_cons_self _ _)

theorem extract_core_fiscal_year (df : List FactRow) (meta : TSVMetadata) (ci : CompanyInfo) :
    (extract_mj_data_core df meta ci).1.fiscal_year = meta.fiscal_year := rfl

theorem keptForYear_shape (ec : String) (metas : List TSVMetadata)
    (njg : Nat → Option String) (readRes : TSVMetadata → Except String (List FactRow))
    (ci : CompanyInfo) (fy : Nat) (mj : MJInput)
    (h : keptForYear ec metas njg (pureExtract readRes ci) fy = some mj) :
    ∃ chosen df,
      (select_best_tsv (metas.filter (fun m => m.fiscal_year == some fy)) ec fy).1
        = some chosen
      ∧ chosen ∈ metas.filter (fun m => m.fiscal_year == some fy)
      ∧ readRes chosen = .ok df
      ∧ (extract_mj_data_core df chosen ci).2.1 = []
      ∧ mj = (extract_mj_data_core df chosen ci).1 := by
  simp only [keptForYear] at h
  cases hemp : (metas.filter (fun m => m.fiscal_year == some fy)).isEmpty with
  | true =>
    simp only [hemp, if_true] at h
    exact Option.noConfusion h
  | false =>
    simp only [hemp, Bool.false_eq_true, if_false] at h
    cases hsel : (select_best_tsv (metas.filter (fun m => m.fiscal_year == some fy)) ec fy).1 with
    | none =>
      simp only [hsel] at h
      exact Option.noConfusion h
    | some chosen =>
      simp only [hsel, pureExtract] at h
      refine ⟨chosen, ?_⟩
      cases hread : readRes chosen with
      | error e =>
        simp only [extract_mj_data_from_tsv, hread] at h
        simp at h
      | ok df =>
        simp only [extract_mj_data_from_tsv, hread] at h
        cases hres : ((extract_mj_data_core df chosen ci).2.1).isEmpty with
        | false =>
          simp only [hres, Bool.false_eq_true, if_false] at h
          exact Option.noConfusion h
        | true =>
          simp only [hres, if_true, Option.some.injEq] at h
          exact ⟨df, rfl, select_best_tsv_fst_mem _ ec fy chosen hsel, rfl,
            List.isEmpty_iff.mp hres, h.symm⟩

theorem keptForYear_fiscal_year (ec : String) (metas : List TSVMetadata)
    (njg : Nat → Option String) (readRes : TSVMetadata → Except String (List FactRow))
    (ci : CompanyInfo) (fy : Nat) (mj : MJInput)
    (h : keptForYear ec metas njg (pureExtract readRes ci) fy = some mj) :
    mj.fiscal_year = some fy := by
  obtain ⟨chosen, df, hsel, hmem, hread, hres, hmj⟩ :=
    keptForYear_shape ec metas njg readRes ci fy mj h
  have h2 := (List.mem_filter.mp hmem).2
  rw [hmj, extract_core_fiscal_year]
  simpa using h2

theorem select_best_tsv_ne_nil (l : List TSVMetadata) (ec : String) (fy : Nat)
    (c : TSVMetadata) (h : (select_best_tsv l ec fy).1 = some c) : l.isEmpty = false := by
  cases l with
  | nil => simp [select_best_tsv] at h
  | cons a t => simp

theorem keptForYear_of_complete (ec : String) (metas : List TSVMetadata)
    (njg : Nat → Option String) (readRes : TSVMetadata → Except String (List FactRow))
    (ci : CompanyInfo) (fy : Nat) (chosen : TSVMetadata) (df : List FactRow)
    (hsel : (select_best_tsv (metas.filter (fun m => m.fiscal_year == some fy)) ec fy).1
      = some chosen)
    (hread : readRes chosen = .ok df)
    (hres : (extract_mj_data_core df chosen ci).2.1 = []) :
    keptForYear ec metas njg (pureExtract readRes ci) fy
      = some (extract_mj_data_core df chosen ci).1 := by
  have hemp := select_best_tsv_ne_nil _ ec fy chosen hsel
  simp only [keptForYear, hemp, Bool.false_eq_true, if_false, hsel, pureExtract,
    extract_mj_data_from_tsv, hread, hres]
  simp

theorem reasonIf_eq_nil (b : Bool) (m : String) (h : reasonIf b m = []) : b = false := by
  cases b
  · rfl
  · simp [reasonIf] at h

theorem isSome_of_isNone_false {α : Type} (o : Option α) (h : o.isNone = false) :
    o.isSome = true := by
  cases o <;> simp_all

theorem extract_core_complete (df : List FactRow) (meta : TSVMetadata) (ci : CompanyInfo)
    (h : (extract_mj_data_core df meta ci).2.1 = []) :
    ((extract_mj_data_core df meta ci).1.rev_t).isSome
    ∧ ((extract_mj_data_core df meta ci).1.rev_t1).isSome
    ∧ ((extract_mj_data_core df meta ci).1.ni_t).isSome
    ∧ ((extract_mj_data_core df meta ci).1.cfo_t).isSome
    ∧ ((extract_mj_data_core df meta ci).1.assets_prev_end).isSome
    ∧ ((extract_mj_data_core df meta ci).1.ar_end_t).isSome
    ∧ ((extract_mj_data_core df meta ci).1.ar_end_t1).isSome
    ∧ ((extract_mj_data_core df meta ci).1.ppe_end_t).isSome
    ∧ ((extract_mj_data_core df meta ci).1.ta_t).isSome
    ∧ ((extract_mj_data_core df meta ci).1.d_rev).isSome
    ∧ ((extract_mj_data_core df meta ci).1.d_ar).isSome := by
  have hr : ∃ s1 s2 s3 s4 s5 s6 s7 s8 s9 s10 s11,
      (extract_mj_data_core df meta ci).2.1 =
        reasonIf ((extract_mj_data_core df meta ci).1.rev_t).isNone s1
        ++ reasonIf ((extract_mj_data_core df meta ci).1.rev_t1).isNone s2
        ++ reasonIf ((extract_mj_data_core df meta ci).1.ni_t).isNone s3
        ++ reasonIf ((extract_mj_data_core df meta ci).1.cfo_t).isNone s4
        ++ reasonIf ((extract_mj_data_core df meta ci).1.assets_prev_end).isNone s5
        ++ reasonIf ((extract_mj_data_core df meta ci).1.ar_end_t).isNone s6
        ++ reasonIf ((extract_mj_data_core df meta ci).1.ar_end_t1).isNone s7
        ++ reasonIf ((extract_mj_data_core df meta ci).1.ppe_end_t).isNone s8
        ++ reasonIf ((extract_mj_data_core df meta ci).1.ta_t).isNone s9
        ++ reasonIf ((extract_mj_data_core df meta ci).1.d_rev).isNone s10
        ++ reasonIf ((extract_mj_data_core df meta ci).1.d_ar).isNone s11 :=
    ⟨_, _, _, _, _, _, _, _, _, _, _, rfl⟩
  obtain ⟨s1, s2, s3, s4, s5, s6, s7, s8, s9, s10, s11, hr⟩ := hr
  rw [hr] at h
  obtain ⟨h, h11⟩ := List.append_eq_nil.mp h
  obtain ⟨h, h10⟩ := List.append_eq_nil.mp h
  obtain ⟨h, h9⟩ := List.append_eq_nil.mp h
  obtain ⟨h, h8⟩ := List.append_eq_nil.mp h
  obtain ⟨h, h7⟩ := List.append_eq_nil.mp h
  obtain ⟨h, h6⟩ := List.append_eq_nil.mp h
  obtain ⟨h, h5⟩ := List.append_eq_nil.mp h
  obtain ⟨h, h4⟩ := List.append_eq_nil.mp h
  obtain ⟨h, h3⟩ := List.append_eq_nil.mp h
  obtain ⟨h1, h2⟩ := List.append_eq_nil.mp h
  exact ⟨isSome_of_isNone_false _ (reasonIf_eq_nil _ _ h1),
    isSome_of_isNone_false _ (reasonIf_eq_nil _ _ h2),
    isSome_of_isNone_false _ (reasonIf_eq_nil _ _ h3),
    isSome_of_isNone_false _ (reasonIf_eq_nil _ _ h4),
    isSome_of_isNone_false _ (reasonIf_eq_nil _ _ h5),
    isSome_of_isNone_false _ (reasonIf_eq_nil _ _ h6),
    isSome_of_isNone_false _ (reasonIf_eq_nil _ _ h7),
    isSome_of_isNone_false _ (reasonIf_eq_nil _ _ h8),
    isSome_of_isNone_false _ (reasonIf_eq_nil _ _ h9),
    isSome_of_isNone_false _ (reasonIf_eq_nil _ _ h10),
    isSome_of_isNone_false _ (reasonIf_eq_nil _ _ h11)⟩

theorem fiscalYearsList_nodup : fiscalYearsList.Nodup := by
  simp [fiscalYearsList, List.nodup_range']

/-- C1: for a processed company-year whose filing was selected, the record
appears in the complete-case output iff its accumulated missing-field reason
list is empty after all field resolutions and derived metrics; and every
record in the complete-case output has all required fields (and the three
derived metrics) non-absent. -/
theorem c1_complete_case (ec : String) (metas : List TSVMetadata) (njg : Nat → Option String)
    (readRes : TSVMetadata → Except String (List FactRow)) (ci : CompanyInfo)
    (b : Batch) (fy : Nat) (chosen : TSVMetadata)
    (hb : process_company ec metas njg (pureExtract readRes ci) = .ok b)
    (hfy : fy ∈ fiscalYearsList)
    (hch : (select_best_tsv (metas.filter (fun m => m.fiscal_year == some fy)) ec fy).1
      = some chosen) :
    ((∃ mj, mj ∈ b.mj_inputs ∧ mj.fiscal_year = some fy) ↔
      (extract_mj_data_from_tsv (readRes chosen) chosen ci).2.1 = [])
  ∧ ∀ mj ∈ b.mj_inputs,
      mj.rev_t.isSome ∧ mj.rev_t1.isSome ∧ mj.ni_t.isSome ∧ mj.cfo_t.isSome
      ∧ mj.assets_prev_end.isSome ∧ mj.ar_end_t.isSome ∧ mj.ar_end_t1.isSome
      ∧ mj.ppe_end_t.isSome ∧ mj.ta_t.isSome ∧ mj.d_rev.isSome ∧ mj.d_ar.isSome := by
  have hchar := process_company_mj ec metas njg (pureExtract readRes ci) b hb
  constructor
  · constructor
    · rintro ⟨mj, hmem, hfyr⟩
      rw [hchar] at hmem
      obtain ⟨fy2, hfy2, hkept⟩ := List.mem_filterMap.mp hmem
      have hfy2eq : fy2 = fy := by
        have h2 := keptForYear_fiscal_year ec metas njg readRes ci fy2 mj hkept
        rw [h2] at hfyr
        exact Option.some.inj hfyr
      subst hfy2eq
      obtain ⟨chosen2, df, hsel2, hmem2, hread2, hres2, hmj2⟩ :=
        keptForYear_shape ec metas njg readRes ci fy2 mj hkept
      have hceq : chosen2 = chosen := by
        rw [hch] at hsel2
        exact (Option.some.inj hsel2).symm
      subst hceq
      simp only [extract_mj_data_from_tsv, hread2]
      exact hres2
    · intro hres
      cases hread : readRes chosen with
      | error e =>
        simp only [extract_mj_data_from_tsv, hread] at hres
        exact absurd hres (by simp)
      | ok df =>
        simp only [extract_mj_data_from_tsv, hread] at hres
        have hkept := keptForYear_of_complete ec metas njg readRes ci fy chosen df
          hch hread hres
        refine ⟨(extract_mj_data_core df chosen ci).1, ?_, ?_⟩
        · rw [hchar]
          exact List.mem_filterMap.mpr ⟨fy, hfy, hkept⟩
        · exact keptForYear_fiscal_year ec metas njg readRes ci fy _ hkept
  · intro mj hmem
    rw [hchar] at hmem
    obtain ⟨fy2, hfy2, hkept⟩ := List.mem_filterMap.mp hmem
    obtain ⟨chosen2, df, hsel2, hmem2, hread2, hres2, hmj2⟩ :=
      keptForYear_shape ec metas njg readRes ci fy2 mj hkept
    subst hmj2
    exact extract_core_complete df chosen2 ci hres2

/-- Missing-year log entry produced for a fixture year with no filing. -/
def noTsvLog (fy : Nat) : MissingLog := ⟨"E1", some fy, "", "no_tsv_found_for_year"⟩

/-- The batch `process_company` produces on the fixture company: the 2015
record plus nine missing-year log entries. -/
def batchFixture : Batch :=
  ⟨[mjFixture],
   [noTsvLog 2016, noTsvLog 2017, noTsvLog 2018, noTsvLog 2019, noTsvLog 2020,
    noTsvLog 2021, noTsvLog 2022, noTsvLog 2023, noTsvLog 2024],
   [], [rdFixture]⟩

theorem fiscalYearsList_eval :
    fiscalYearsList = [2015, 2016, 2017, 2018, 2019, 2020, 2021, 2022, 2023, 2024] := by
  decide

set_option maxHeartbeats 2000000 in
theorem process_company_fixture_eval :
    process_company "E1" [metaFixture] (fun _ => none)
      (pureExtract (fun _ => .ok dfFixture) ciFixture) = .ok batchFixture := by
  unfold process_company
  rw [fiscalYearsList_eval]
  have hm : metaFixture.fiscal_year = some 2015 := rfl
  simp [process_company_go, process_year, select_best_tsv, pureExtract,
    extract_mj_data_from_tsv, extract_fixture_eval, hm, Batch.empty,
    Batch.append, batchFixture, noTsvLog]

/-- Witness for C1: on the fixture company, the 2015 filing resolves with an
empty missing-reason list, so its record appears in the complete-case output. -/
theorem c1_witness : ∃ mj, mj ∈ batchFixture.mj_inputs ∧ mj.fiscal_year = some 2015 :=
  ((c1_complete_case "E1" [metaFixture] (fun _ => none) (fun _ => .ok dfFixture) ciFixture
      batchFixture 2015 metaFixture process_company_fixture_eval
      (by rw [fiscalYearsList_eval]; simp)
      (by decide)).1).mpr
    (by simp [extract_mj_data_from_tsv, extract_fixture_eval])

theorem extract_core_rule_of_complete (df : List FactRow) (meta : TSVMetadata)
    (ci : CompanyInfo) (h : (extract_mj_data_core df meta ci).2.1 = []) :
    (extract_mj_data_core df meta ci).1.rec_rule = some "PLUS_E" := by
  have h6 := (extract_core_complete df meta ci h).2.2.2.2.2.1
  have har : (extract_mj_data_core df meta ci).1.ar_end_t =
      add_eclaims
        (extract_value_with_fallback_and_eid df ELEMENT_REC_BASE "当期末" "時点"
          (if check_has_consolidated_data df ELEMENT_NET_SALES then "連結" else "個別")
          "jppfs_cor:").1
        (extract_value_with_fallback_and_eid df ELEMENT_ECLAIMS "当期末" "時点"
          (if check_has_consolidated_data df ELEMENT_NET_SALES then "連結" else "個別")
          "jppfs_cor:").1 := rfl
  have hrr : (extract_mj_data_core df meta ci).1.rec_rule =
      some (if ((extract_value_with_fallback_and_eid df ELEMENT_REC_BASE "当期末" "時点"
          (if check_has_consolidated_data df ELEMENT_NET_SALES then "連結" else "個別")
          "jppfs_cor:").1).isSome then "PLUS_E" else "NO_BASE") := rfl
  cases hb : (extract_value_with_fallback_and_eid df ELEMENT_REC_BASE "当期末" "時点"
      (if check_has_consolidated_data df ELEMENT_NET_SALES then "連結" else "個別")
      "jppfs_cor:").1 with
  | none =>
    rw [har, hb] at h6
    simp [add_eclaims] at h6
  | some v =>
    rw [hrr, hb]
    simp

/-- C10: a record's synthesis-rule tag is "PLUS_E" exactly when the
current-period-end receivables base resolved (the prior period end plays no
role), otherwise "NO_BASE"; the record-level matched-tag fields report the
current-period-end tags only, while the prior-period-end matched tag goes to
the Receivables-Debug Log; and every record in the complete-case output
carries rec_rule = "PLUS_E". -/
theorem c10_rec_rule (df : List FactRow) (meta : TSVMetadata) (ci : CompanyInfo) :
    ((extract_mj_data_core df meta ci).1.rec_rule = some "PLUS_E" ↔
      ((extract_value_with_fallback_and_eid df ELEMENT_REC_BASE "当期末" "時点"
        (if check_has_consolidated_data df ELEMENT_NET_SALES then "連結" else "個別")
        "jppfs_cor:").1).isSome)
  ∧ ((extract_mj_data_core df meta ci).1.rec_rule = some "PLUS_E"
      ∨ (extract_mj_data_core df meta ci).1.rec_rule = some "NO_BASE")
  ∧ (extract_mj_data_core df meta ci).1.rec_used_base_eid
      = some (((extract_value_with_fallback_and_eid df ELEMENT_REC_BASE "当期末" "時点"
          (if check_has_consolidated_data df ELEMENT_NET_SALES then "連結" else "個別")
          "jppfs_cor:").2).getD "")
  ∧ (extract_mj_data_core df meta ci).1.rec_used_eclaims_eid
      = some (((extract_value_with_fallback_and_eid df ELEMENT_ECLAIMS "当期末" "時点"
          (if check_has_consolidated_data df ELEMENT_NET_SALES then "連結" else "個別")
          "jppfs_cor:").2).getD "")
  ∧ (extract_mj_data_core df meta ci).2.2.rec_used_base_eid_end_t1
      = some (((extract_value_with_fallback_and_eid df ELEMENT_REC_BASE "前期末" "時点"
          (if check_has_consolidated_data df ELEMENT_NET_SALES then "連結" else "個別")
          "jppfs_cor:").2).getD "")
  ∧ (∀ ec metas njg readRes ci2 b,
      process_company ec metas njg (pureExtract readRes ci2) = .ok b →
      ∀ mj ∈ b.mj_inputs, mj.rec_rule = some "PLUS_E") := by
  have hrr : (extract_mj_data_core df meta ci).1.rec_rule =
      some (if ((extract_value_with_fallback_and_eid df ELEMENT_REC_BASE "当期末" "時点"
          (if check_has_consolidated_data df ELEMENT_NET_SALES then "連結" else "個別")
          "jppfs_cor:").1).isSome then "PLUS_E" else "NO_BASE") := rfl
  refine ⟨?_, ?_, rfl, rfl, rfl, ?_⟩
  · cases hb : (extract_value_with_fallback_and_eid df ELEMENT_REC_BASE "当期末" "時点"
        (if check_has_consolidated_data df ELEMENT_NET_SALES then "連結" else "個別")
        "jppfs_cor:").1 with
    | none => rw [hrr, hb]; simp
    | some v => rw [hrr, hb]; simp
  · cases hb : (extract_value_with_fallback_and_eid df ELEMENT_REC_BASE "当期末" "時点"
        (if check_has_consolidated_data df ELEMENT_NET_SALES then "連結" else "個別")
        "jppfs_cor:").1 with
    | none => rw [hrr, hb]; right; simp
    | some v => rw [hrr, hb]; left; simp
  · intro ec metas njg readRes ci2 b hb mj hmem
    rw [process_company_mj ec metas njg (pureExtract readRes ci2) b hb] at hmem
    obtain ⟨fy2, hfy2, hkept⟩ := List.mem_filterMap.mp hmem
    obtain ⟨chosen2, df2, hsel2, hmem2, hread2, hres2, hmj2⟩ :=
      keptForYear_shape ec metas njg readRes ci2 fy2 mj hkept
    subst hmj2
    exact extract_core_rule_of_complete df2 chosen2 ci2 hres2

/-- Witness for C10: the fixture record sits in the complete-case output and
carries rec_rule = "PLUS_E". -/
theorem c10_witness : mjFixture.rec_rule = some "PLUS_E" :=
  (c10_rec_rule dfFixture metaFixture ciFixture).2.2.2.2.2 "E1" [metaFixture]
    (fun _ => none) (fun _ => .ok dfFixture) ciFixture batchFixture
    process_company_fixture_eval mjFixture (by simp [batchFixture])

/-! ### C6/C7 — Filing Selector -/

theorem keyLe_refl (a : String × String) : keyLe a a := Or.inr ⟨rfl, le_refl _⟩

theorem select_best_tsv_many (metas : List TSVMetadata) (ec : String) (fy : Nat)
    (h2 : 2 ≤ metas.length) :
    ∃ chosen rest,
      select_best_tsv metas ec fy = (some chosen, rest.map (mkDuplicateLog ec fy chosen))
      ∧ chosen ∈ metas
      ∧ (∀ m ∈ metas, keyLe (sortKey m) (sortKey chosen))
      ∧ (chosen :: rest).Perm metas := by
  match metas, h2 with
  | a :: b2 :: t, _ =>
    cases hs : List.insertionSort selGe (a :: b2 :: t) with
    | nil =>
      have hp := List.perm_insertionSort selGe (a :: b2 :: t)
      rw [hs] at hp
      exact absurd hp.symm (by simp)
    | cons chosen rest =>
      have hp := List.perm_insertionSort selGe (a :: b2 :: t)
      rw [hs] at hp
      have hsorted := List.sorted_insertionSort selGe (a :: b2 :: t)
      rw [hs] at hsorted
      refine ⟨chosen, rest, by simp only [select_best_tsv, hs],
        hp.mem_iff.mp (List.mem_cons_self _ _), ?_, hp⟩
      intro m hm
      rcases List.mem_cons.mp (hp.mem_iff.mpr hm) with hm2 | hm2
      · rw [hm2]; exact keyLe_refl _
      · exact List.rel_of_sorted_cons hsorted m hm2

theorem string_empty_lt (s : String) (hne : s ≠ "") : ("" : String) < s := by
  rw [String.lt_iff_toList_lt]
  cases hd : s.toList with
  | nil =>
    exfalso
    apply hne
    cases s with
    | mk data => exact congrArg String.mk (by simpa using hd)
  | cons c cs => exact List.nil_lt_cons c cs

/-- C6: with more than one eligible filing, the selector picks exactly one
filing, which is maximal in the (timestamp-or-empty, path) order — so the
most recently submitted wins, paths break ties, and filings lacking a
timestamp (a falsy one) order strictly before all filings with a nonempty
one — and the Duplicate-Filing Log holds exactly one entry per non-selected
filing. -/
theorem c6_filing_selector (metas : List TSVMetadata) (ec : String) (fy : Nat)
    (h2 : 2 ≤ metas.length) :
    ∃ chosen : TSVMetadata, ∃ rest : List TSVMetadata,
      select_best_tsv metas ec fy = (some chosen, rest.map (mkDuplicateLog ec fy chosen))
      ∧ chosen ∈ metas
      ∧ (∀ m ∈ metas, keyLe (sortKey m) (sortKey chosen))
      ∧ rest.Perm (metas.erase chosen)
      ∧ (select_best_tsv metas ec fy).2.length = metas.length - 1
      ∧ (∀ m m' : TSVMetadata,
          (m.submit_datetime = none ∨ m.submit_datetime = some "") →
          (∀ s, m'.submit_datetime = some s → s ≠ "") → m'.submit_datetime.isSome →
          (sortKey m).1 < (sortKey m').1) := by
  obtain ⟨chosen, rest, hsel, hmem, hmax, hp⟩ := select_best_tsv_many metas ec fy h2
  refine ⟨chosen, rest, hsel, hmem, hmax, ?_, ?_, ?_⟩
  · have := hp.erase chosen
    rw [List.erase_cons_head] at this
    exact this
  · rw [hsel]
    simp only [List.length_map]
    have := hp.length_eq
    simp only [List.length_cons] at this
    omega
  · intro m m' hm hm' hm'some
    have h1 : (sortKey m).1 = "" := by
      rcases hm with h | h <;> simp [sortKey, h]
    cases hs : m'.submit_datetime with
    | none => rw [hs] at hm'some; simp at hm'some
    | some s =>
      have h2' : (sortKey m').1 = s := by simp [sortKey, hs]
      rw [h1, h2']
      exact string_empty_lt s (hm' s hs)

/-- Witness for C6: two filings, the later-submitted one is selected and the
other logged exactly once. -/
theorem c6_witness :
    ∃ chosen : TSVMetadata, ∃ rest : List TSVMetadata,
      select_best_tsv [metaFixture,
        { metaFixture with tsv_path := "q", submit_datetime := some "2016-07-01" }]
        "E1" 2015
        = (some chosen, rest.map (mkDuplicateLog "E1" 2015 chosen))
      ∧ chosen ∈ [metaFixture,
          { metaFixture with tsv_path := "q", submit_datetime := some "2016-07-01" }]
      ∧ (∀ m ∈ [metaFixture,
          { metaFixture with tsv_path := "q", submit_datetime := some "2016-07-01" }],
          keyLe (sortKey m) (sortKey chosen))
      ∧ rest.Perm ([metaFixture,
          { metaFixture with tsv_path := "q", submit_datetime := some "2016-07-01" }].erase
            chosen)
      ∧ (select_best_tsv [metaFixture,
          { metaFixture with tsv_path := "q", submit_datetime := some "2016-07-01" }]
          "E1" 2015).2.length
        = [metaFixture,
            { metaFixture with tsv_path := "q", submit_datetime := some "2016-07-01" }].length
            - 1
      ∧ (∀ m m' : TSVMetadata,
          (m.submit_datetime = none ∨ m.submit_datetime = some "") →
          (∀ s, m'.submit_datetime = some s → s ≠ "") → m'.submit_datetime.isSome →
          (sortKey m).1 < (sortKey m').1) :=
  c6_filing_selector _ "E1" 2015 (by decide)

/-- C7: on pairwise-distinct file paths, filing selection is deterministic and
order-independent — any permutation of the eligible filings yields the same
selected filing. -/
theorem c7_selector_order_independent (l1 l2 : List TSVMetadata) (ec : String) (fy : Nat)
    (hperm : l1.Perm l2) (hnd : (l1.map (fun m => m.tsv_path)).Nodup) :
    (select_best_tsv l1 ec fy).1 = (select_best_tsv l2 ec fy).1 := by
  cases l1 with
  | nil =>
    have h0 : l2 = [] := hperm.symm.eq_nil
    rw [h0]
  | cons a t1 =>
    cases t1 with
    | nil =>
      have h0 : l2 = [a] := List.perm_singleton.mp hperm.symm
      rw [h0]
    | cons b2 t =>
      have h2 : 2 ≤ (a :: b2 :: t).length := by simp
      have h2' : 2 ≤ l2.length := by rw [← hperm.length_eq]; exact h2
      obtain ⟨c1, r1, hs1, hm1, hmax1, hp1⟩ := select_best_tsv_many (a :: b2 :: t) ec fy h2
      obtain ⟨c2, r2, hs2, hm2, hmax2, hp2⟩ := select_best_tsv_many l2 ec fy h2'
      have hc2in1 : c2 ∈ a :: b2 :: t := hperm.mem_iff.mpr hm2
      have hk12 : keyLe (sortKey c1) (sortKey c2) := hmax2 c1 (hperm.mem_iff.mp hm1)
      have hk21 : keyLe (sortKey c2) (sortKey c1) := hmax1 c2 hc2in1
      have hkeq : sortKey c2 = sortKey c1 := keyLe_antisymm _ _ hk21 hk12
      have hpath : c2.tsv_path = c1.tsv_path := congrArg Prod.snd hkeq
      have hceq : c2 = c1 :=
        List.inj_on_of_nodup_map hnd hc2in1 hm1 hpath
      rw [hs1, hs2, hceq]

/-- Witness for C7: swapping two filings with distinct paths selects the same
filing. -/
theorem c7_witness :
    (select_best_tsv [metaFixture,
        { metaFixture with tsv_path := "q", submit_datetime := some "2016-07-01" }]
      "E1" 2015).1
    = (select_best_tsv
        [{ metaFixture with tsv_path := "q", submit_datetime := some "2016-07-01" },
         metaFixture] "E1" 2015).1 :=
  c7_selector_order_independent _ _ "E1" 2015 (List.Perm.swap _ _ _) (by decide)

/-! ### C5 — company-level failure at the Corpus Driver boundary -/

/-- The concatenated batches of the companies whose processing returned
without raising. -/
def okBatches : List (String × Except String Batch) → Batch
  | [] => Batch.empty
  | cr :: t =>
    (match cr.2 with
      | .ok b => b
      | .error _ => Batch.empty).append (okBatches t)

/-- The warning lines the aggregation loop emits, one per raised company. -/
def runWarnings : List (String × Except String Batch) → List String
  | [] => []
  | cr :: t =>
    (match cr.2 with
      | .ok _ => []
      | .error e => ["Error processing " ++ cr.1 ++ ": " ++ e]) ++ runWarnings t

theorem Batch.append_assoc (a b c : Batch) :
    (a.append b).append c = a.append (b.append c) := by
  cases a; cases b; cases c; simp [Batch.append]

theorem Batch.empty_append (a : Batch) : Batch.empty.append a = a := by
  cases a; simp [Batch.append, Batch.empty]

theorem aggregate_results_go (rs : List (String × Except String Batch)) :
    ∀ acc : Batch × List String,
      rs.foldl (fun acc cr =>
        match cr.2 with
        | .ok b => (acc.1.append b, acc.2)
        | .error e => (acc.1, acc.2 ++ ["Error processing " ++ cr.1 ++ ": " ++ e])) acc
      = (acc.1.append (okBatches rs), acc.2 ++ runWarnings rs) := by
  induction rs with
  | nil =>
    intro acc
    simp [okBatches, runWarnings, Batch.append, Batch.empty]
  | cons cr t ih =>
    intro acc
    obtain ⟨name, res⟩ := cr
    cases res with
    | ok b =>
      simp only [List.foldl_cons, ih, okBatches, runWarnings, Batch.append_assoc,
        List.nil_append]
    | error e =>
      simp only [List.foldl_cons, ih, okBatches, runWarnings, Batch.empty_append,
        List.append_assoc, List.singleton_append]

theorem process_company_go_error (ec : String) (metas : List TSVMetadata)
    (njg : Nat → Option String) (eo : ExtractOutcome) :
    ∀ years : List Nat, ∀ acc : Batch,
      (∃ fy ∈ years, ∃ e, process_year ec metas njg eo fy = .error e) →
      ∃ e2, process_company_go ec metas njg eo years acc = .error e2 := by
  intro years
  induction years with
  | nil =>
    intro acc h
    simp at h
  | cons y t ih =>
    intro acc h
    cases hy : process_year ec metas njg eo y with
    | error e => exact ⟨e, by simp [process_company_go, hy]⟩
    | ok d =>
      obtain ⟨fy, hin, e, herr⟩ := h
      rcases List.mem_cons.mp hin with hfy | hfy
      · subst hfy
        rw [hy] at herr
        exact Except.noConfusion herr
      · obtain ⟨e2, h2⟩ := ih (acc.append d) ⟨fy, hfy, e, herr⟩
        exact ⟨e2, by simp [process_company_go, hy, h2]⟩

/-- Counterexample data for C5: a company with a 2015 filing that extracts a
complete record and a 2016 filing whose extraction raises. -/
def metaC5a : TSVMetadata := ⟨"a", "E1", none, some 2015, none, none, none, none, false⟩

def metaC5b : TSVMetadata := ⟨"b", "E1", none, some 2016, none, none, none, none, false⟩

def eoC5 : ExtractOutcome := fun m =>
  if m.tsv_path == "a" then .ok (some mjFixture, [], none) else .error "boom"

/-- Counterexample for C5 as stated: fiscal year 2015 completes with a record
before the 2016 exception, yet `process_company` propagates the exception and
the aggregated output keeps none of the company's partial results — only the
warning survives.  This refutes "partial results for fiscal years already
completed before the exception are still kept". -/
theorem c5_counterexample :
    process_year "E1" [metaC5a, metaC5b] (fun _ => none) eoC5 2015
      = .ok ⟨[mjFixture], [], [], []⟩
    ∧ process_company "E1" [metaC5a, metaC5b] (fun _ => none) eoC5 = .error "boom"
    ∧ (aggregate_results
        [("E1", process_company "E1" [metaC5a, metaC5b] (fun _ => none) eoC5)]).1.mj_inputs
      = []
    ∧ (aggregate_results
        [("E1", process_company "E1" [metaC5a, metaC5b] (fun _ => none) eoC5)]).2
      = ["Error processing E1: boom"] :=
  ⟨rfl, rfl, rfl, rfl⟩

/-- C5 amended: an exception while processing one company is caught at the
Corpus Driver boundary and logged as a warning, and the run continues — the
aggregated output is exactly the batches of the non-raising companies plus
one warning per raised one — but the raising company's partial results for
already-completed years are discarded: any year whose extraction raises makes
`process_company` itself return the exception, so the company contributes
nothing. -/
theorem c5_company_failure :
    (∀ rs, aggregate_results rs = (okBatches rs, runWarnings rs))
  ∧ (∀ ec metas njg eo,
      (∃ fy ∈ fiscalYearsList, ∃ e, process_year ec metas njg eo fy = .error e) →
      ∃ e2, process_company ec metas njg eo = .error e2) := by
  constructor
  · intro rs
    have h := aggregate_results_go rs (Batch.empty, [])
    simpa [aggregate_results, Batch.empty_append] using h
  · intro ec metas njg eo h
    exact process_company_go_error ec metas njg eo fiscalYearsList Batch.empty h

/-- Witness for the amended C5: the counterexample company's run propagates
the 2016 exception. -/
theorem c5_witness :
    ∃ e2, process_company "E1" [metaC5a, metaC5b] (fun _ => none) eoC5 = .error e2 :=
  c5_company_failure.2 "E1" [metaC5a, metaC5b] (fun _ => none) eoC5
    ⟨2016, by rw [fiscalYearsList_eval]; simp, "boom", rfl⟩
